import Mathlib

/-!  Verification of the ETL pipeline + data-quality engine of the
data-engineering-app repository.

The development shallowly embeds `src/processing/data_quality.py` and
`src/processing/etl_pipeline.py`:

* Python strings are Lean `String`s; the helpers `pyWords`, `pyCount`,
  `pySentences`, `pyLower` reproduce `str.split()`, `str.count`,
  `text.split('.')` and `str.lower()` respectively.
* SQL `NULL` values read from the `extracted_text` column (declared
  `LONGTEXT` with no `NOT NULL` constraint) surface in Python as `None`,
  so document text is an `Option String`; operations that would raise a
  `TypeError`/`AttributeError` on `None` (such as `len(text)` or
  `text.split()`) are embedded in `Except Unit`.
* Numeric scores are `ℚ` (Python floats hold the exact values here: all
  arithmetic is ratios of small integers).
* The database is a record of four lists of rows mirroring the tables
  `files`, `processed_data`, `analytics_results`, `data_quality_metrics`;
  the extraction query, the transform loop and the load loop are embedded
  as list programs, and the error paths of `run_pipeline` as an
  `Except`-valued variant driven by which store calls fail.
-/

namespace DataEng

/-- Result of one quality check as built by `data_quality.py`:
a numeric value and a status label. -/
structure CheckResult where
  value : ℚ
  status : String
deriving DecidableEq, Repr

/-! ### Python string helpers -/

/-- Worker for `pyWords`: scans the text accumulating the current word
(reversed) in `acc`, emitting it at each whitespace run boundary. -/
def splitWSAux : List Char → List Char → List (List Char)
  | [], acc => if acc = [] then [] else [acc.reverse]
  | c :: rest, acc =>
    if c.isWhitespace then
      if acc = [] then splitWSAux rest []
      else acc.reverse :: splitWSAux rest []
    else splitWSAux rest (c :: acc)

/-- Python `text.split()` (no separator): split on runs of whitespace,
discarding empty pieces. -/
def pyWords (s : String) : List (List Char) :=
  splitWSAux s.toList []

/-- Worker for `pyCount`: scans the text left to right, consuming the
whole pattern at each match.  `fuel` bounds the remaining scan steps; it
is initialised with the text length, which always suffices because every
step consumes at least one character (the recursion is structural on
`fuel` so that the kernel can evaluate it). -/
def countOccsFuel (pat : List Char) : Nat → List Char → Nat
  | _, [] => 0
  | 0, _ :: _ => 0
  | fuel + 1, c :: rest =>
    if pat ≠ [] ∧ pat.isPrefixOf (c :: rest) then
      1 + countOccsFuel pat fuel ((c :: rest).drop pat.length)
    else
      countOccsFuel pat fuel rest

/-- Python `text.count(pat)` for a non-empty `pat`: the number of
non-overlapping occurrences, scanning left to right. -/
def pyCount (s pat : String) : Nat :=
  countOccsFuel pat.toList s.toList.length s.toList

/-- Python `text.lower()`. -/
def pyLower (s : String) : String :=
  String.mk (s.toList.map Char.toLower)

/-- Worker for `pySentences`: Python `text.split('.')`, keeping empty
pieces (they are filtered later exactly as the source does). -/
def splitDotAux : List Char → List Char → List (List Char)
  | [], acc => [acc.reverse]
  | c :: rest, acc =>
    if c = '.' then acc.reverse :: splitDotAux rest []
    else splitDotAux rest (c :: acc)

/-- Python `[s for s in text.split('.') if s.strip()]`. -/
def pySentences (s : String) : List (List Char) :=
  (splitDotAux s.toList []).filter (fun p => ¬ p.all Char.isWhitespace)

/-- Python `max(a, b)` on ints (kept as an explicit `if` so that it
evaluates by kernel reduction). -/
def pyMaxNat (a b : Nat) : Nat := if a < b then b else a

/-- Python `max(a, b)` on floats (here exact rationals). -/
def pyMaxQ (a b : ℚ) : ℚ := if a < b then b else a

/-! ### The record handed to the quality checker

`_transform_data` passes each row of the extraction query, a dict with
keys `file_id`, `filename`, `file_type`, `metadata`, `data_id`,
`content_type`, `extracted_text`, straight to
`DataQualityChecker.check_data_quality`.  Only `extracted_text` can be
`None` there (`LONGTEXT` column, nullable); the other columns feed string
comparisons that never raise, so they are plain `String`s. -/
structure FileData where
  file_id : String
  filename : String
  file_type : String
  metadata : String
  data_id : String
  content_type : String
  extracted_text : Option String
deriving DecidableEq, Repr

/-! ### data_quality.py -/

/-- `_check_completeness(text)`.  `if not text or text.strip() == ""`:
`None` and `""` are falsy, and `text.strip() == ""` holds exactly when
every character is whitespace.  The branch never raises. -/
def checkCompleteness (t : Option String) : CheckResult :=
  match t with
  | none => ⟨0, "failed"⟩
  | some s =>
    if s = "" ∨ s.toList.all Char.isWhitespace then ⟨0, "failed"⟩
    else
      let word_count := (pyWords s).length
      if word_count < 10 then ⟨0.3, "poor"⟩
      else if word_count < 50 then ⟨0.6, "fair"⟩
      else ⟨0.9, "good"⟩

/-- The `invalid_patterns` list of `_check_validity` (the first entry is
the mojibake rendering of the replacement character that the source file
contains literally). -/
def invalid_patterns : List String := ["ï¿½", "NULL", "undefined"]

/-- Body of `_check_validity(text)` for an actual string: the oversized
guard, then `score = max(0, 1 - invalid_count / max(len(text.split()), 1))`
and `status = 'good' if score > 0.8 else 'poor'`. -/
def checkValidityStr (s : String) : CheckResult :=
  if s.length > 1000000 then ⟨0.2, "poor"⟩
  else
    let invalid_count := (invalid_patterns.map (fun p => pyCount s p)).sum
    let score : ℚ := pyMaxQ 0 (1 - (invalid_count : ℚ) / (pyMaxNat (pyWords s).length 1 : ℚ))
    ⟨score, if score > 0.8 then "good" else "poor"⟩

/-- `_check_validity(text)`.  `len(None)` raises a `TypeError`, hence the
`Except`; a string always yields a result dict. -/
def checkValidity (t : Option String) : Except Unit CheckResult :=
  match t with
  | none => .error ()
  | some s => .ok (checkValidityStr s)

/-- `_check_consistency(file_data)`.  Reads `metadata` (unused), compares
`file_type` with `content_type`; never raises. -/
def checkConsistency (fd : FileData) : CheckResult :=
  if fd.file_type ≠ fd.content_type then ⟨0.5, "fair"⟩
  else ⟨0.9, "good"⟩

/-- Body of `_check_uniqueness(text)` for an actual string:
`len(set(words)) / max(len(words), 1)` with
`status = 'good' if ratio > 0.7 else 'fair'`. -/
def checkUniquenessStr (s : String) : CheckResult :=
  let words := pyWords s
  let ratio : ℚ := (words.dedup.length : ℚ) / (pyMaxNat words.length 1 : ℚ)
  ⟨ratio, if ratio > 0.7 then "good" else "fair"⟩

/-- `_check_uniqueness(text)`.  `None.split()` raises an
`AttributeError`; a string always yields a result dict. -/
def checkUniqueness (t : Option String) : Except Unit CheckResult :=
  match t with
  | none => .error ()
  | some s => .ok (checkUniquenessStr s)

/-- `_check_accuracy(file_data)`: fixed placeholder. -/
def checkAccuracy : CheckResult := ⟨0.8, "good"⟩

/-- `DataQualityChecker.check_data_quality(file_data)`.  The five checks
run in order inside one `try`; the first exception stops the sequence and
appends the entry `'error': {'value': 0, 'status': 'failed'}` to whatever
`checks` already holds (Python dicts preserve insertion order).
`completeness`, `consistency` and `accuracy` cannot raise; `validity` and
`uniqueness` raise exactly on `None` text. -/
def checkDataQuality (fd : FileData) : List (String × CheckResult) :=
  let c1 := checkCompleteness fd.extracted_text
  match checkValidity fd.extracted_text with
  | .error _ => [("completeness", c1), ("error", ⟨0, "failed"⟩)]
  | .ok c2 =>
    let c3 := checkConsistency fd
    match checkUniqueness fd.extracted_text with
    | .error _ =>
      [("completeness", c1), ("validity", c2), ("consistency", c3),
       ("error", ⟨0, "failed"⟩)]
    | .ok c4 =>
      [("completeness", c1), ("validity", c2), ("consistency", c3),
       ("uniqueness", c4), ("accuracy", checkAccuracy)]

/-! ### etl_pipeline.py — analytics and feature engineering -/

/-- The `positive_words` lexicon of `_perform_basic_analytics`. -/
def positive_words : List String :=
  ["good", "great", "excellent", "amazing", "wonderful"]

/-- The `negative_words` lexicon of `_perform_basic_analytics`. -/
def negative_words : List String :=
  ["bad", "terrible", "awful", "horrible", "poor"]

/-- `sum(1 for word in text.lower().split() if word in positive_words)`. -/
def positiveCount (s : String) : Nat :=
  (pyWords (pyLower s)).countP (fun w => w ∈ positive_words.map String.toList)

/-- `sum(1 for word in text.lower().split() if word in negative_words)`. -/
def negativeCount (s : String) : Nat :=
  (pyWords (pyLower s)).countP (fun w => w ∈ negative_words.map String.toList)

/-- `_calculate_readability(text)`. -/
def calculateReadability (s : String) : ℚ :=
  let words := pyWords s
  let sentences := pySentences s
  if words.length = 0 ∨ sentences.length = 0 then 0
  else pyMaxQ 0 (100 - (words.length : ℚ) / (sentences.length : ℚ))

/-- The dict returned by `_perform_basic_analytics`. -/
structure Analytics where
  word_count : Nat
  char_count : Nat
  sentence_count : Nat
  sentiment_score : ℚ
  readability_score : ℚ
deriving DecidableEq, Repr

/-- Body of `_perform_basic_analytics(file_data)` for an actual string. -/
def performBasicAnalyticsStr (s : String) : Analytics :=
  let word_count := (pyWords s).length
  { word_count := word_count
    char_count := s.length
    sentence_count := (pySentences s).length
    sentiment_score :=
      ((positiveCount s : ℤ) - (negativeCount s : ℤ) : ℚ) /
        (pyMaxNat word_count 1 : ℚ)
    readability_score := calculateReadability s }

/-- `_perform_basic_analytics(file_data)`.  `text.split()` on `None`
raises an `AttributeError` (caught per record by `_transform_data`);
an actual string is processed totally. -/
def performBasicAnalytics (t : Option String) : Except Unit Analytics :=
  match t with
  | none => .error ()
  | some s => .ok (performBasicAnalyticsStr s)

/-- The dict returned by `_engineer_features`. -/
structure Features where
  has_numbers : Bool
  has_special_chars : Bool
  avg_word_length : ℚ
  capital_ratio : ℚ
deriving DecidableEq, Repr

/-- Body of `_engineer_features(file_data)` for an actual string. -/
def engineerFeaturesStr (s : String) : Features :=
  { has_numbers := s.toList.any Char.isDigit
    has_special_chars := s.toList.any (fun c => ¬ c.isAlphanum)
    avg_word_length :=
      (((pyWords s).map List.length).sum : ℚ) /
        (pyMaxNat (pyWords s).length 1 : ℚ)
    capital_ratio :=
      (s.toList.countP Char.isUpper : ℚ) / (pyMaxNat s.length 1 : ℚ) }

/-- `_engineer_features(file_data)`; raises exactly on `None` text. -/
def engineerFeatures (t : Option String) : Except Unit Features :=
  match t with
  | none => .error ()
  | some s => .ok (engineerFeaturesStr s)

/-! ### etl_pipeline.py — the database and the three phases -/

/-- A row of the `files` table (columns the pipeline touches). -/
structure FileRow where
  file_id : String
  filename : String
  file_type : String
  metadata : String
  processed : Bool
deriving DecidableEq, Repr

/-- A row of the `processed_data` table (columns the pipeline touches);
`extracted_text` is nullable. -/
structure PDRow where
  data_id : String
  file_id : String
  content_type : String
  extracted_text : Option String
deriving DecidableEq, Repr

/-- A row of the `analytics_results` table.  `analysis_id` is a fresh
`UUID()` never read back, so it is not modelled; `results` keeps the
analytics record whose `str()` rendering the source stores. -/
structure ARRow where
  data_id : String
  analysis_type : String
  results : Analytics
  insights : String
  confidence_score : ℚ
deriving DecidableEq, Repr

/-- A row of the `data_quality_metrics` table (`metric_id` is a fresh
`UUID()` never read back). -/
structure QMRow where
  file_id : String
  check_type : String
  check_value : ℚ
  status : String
deriving DecidableEq, Repr

/-- The persistent store: the four tables as lists of rows in insertion
order. -/
structure DB where
  files : List FileRow
  processed_data : List PDRow
  analytics_results : List ARRow
  quality_metrics : List QMRow
deriving DecidableEq, Repr

/-- `EXISTS (SELECT 1 FROM analytics_results ar WHERE ar.data_id = %s)`. -/
def hasResult (db : DB) (did : String) : Bool :=
  db.analytics_results.any (fun ar => ar.data_id == did)

/-- The inner join `files f JOIN processed_data pd ON f.file_id =
pd.file_id`, enumerated in nested-loop order. -/
def joinRows (db : DB) : List (FileRow × PDRow) :=
  db.files.flatMap fun f =>
    (db.processed_data.filter (fun pd => pd.file_id == f.file_id)).map
      (fun pd => (f, pd))

/-- The `WHERE` clause of the extraction query: `f.processed = TRUE AND
NOT EXISTS (... ar.data_id = pd.data_id)`. -/
def extractCandidates (db : DB) : List (FileRow × PDRow) :=
  (joinRows db).filter fun fp => fp.1.processed && !hasResult db fp.2.data_id

/-- `_extract_unprocessed_files(batch_size)` on a reachable store:
the filtered join rows, `LIMIT batch_size`. -/
def extractUnprocessedFiles (db : DB) (batch_size : Nat) : List (FileRow × PDRow) :=
  (extractCandidates db).take batch_size

/-- The dict produced for one result row of the extraction query. -/
def rowToFileData (f : FileRow) (pd : PDRow) : FileData :=
  { file_id := f.file_id
    filename := f.filename
    file_type := f.file_type
    metadata := f.metadata
    data_id := pd.data_id
    content_type := pd.content_type
    extracted_text := pd.extracted_text }

/-- One element of `transformed_data`. -/
structure Transformed where
  data_id : String
  quality_metrics : List (String × CheckResult)
  analytics : Analytics
  features : Features
  file_metadata : FileData
deriving DecidableEq, Repr

/-- `_transform_data(files_data)`: per record, quality check (total —
`check_data_quality` catches its own errors), then analytics and feature
engineering; any exception for one record is caught and the record is
skipped (`continue`). -/
def transformData (l : List FileData) : List Transformed :=
  l.filterMap fun fd =>
    match performBasicAnalytics fd.extracted_text,
          engineerFeatures fd.extracted_text with
    | .ok a, .ok ft =>
      some
        { data_id := fd.data_id
          quality_metrics := checkDataQuality fd
          analytics := a
          features := ft
          file_metadata := fd }
    | _, _ => none

/-- The `analytics_results` row inserted for one transformed record. -/
def mkARRow (r : Transformed) : ARRow :=
  { data_id := r.data_id
    analysis_type := "basic_analytics"
    results := r.analytics
    insights := "Processed file with " ++ toString r.analytics.word_count ++ " words"
    confidence_score := r.analytics.sentiment_score }

/-- The `data_quality_metrics` rows inserted for one transformed record:
one per entry of its quality dict, keyed by the owning `file_id`. -/
def mkQMRows (r : Transformed) : List QMRow :=
  r.quality_metrics.map fun nc =>
    { file_id := r.file_metadata.file_id
      check_type := nc.1
      check_value := nc.2.value
      status := nc.2.status }

/-- `_load_analytics(transformed_data)` on a reachable store.  The Python
loop interleaves inserts into the two tables, but per table the rows land
exactly in this concatenation order. -/
def loadAnalytics (db : DB) (l : List Transformed) : DB :=
  { db with
    analytics_results := db.analytics_results ++ l.map mkARRow
    quality_metrics := db.quality_metrics ++ l.flatMap mkQMRows }

/-- `run_pipeline(batch_size)` on the error-free path: extract, stop
silently if nothing pending, else transform and load. -/
def runPipeline (db : DB) (batch_size : Nat) : DB :=
  let files_data := extractUnprocessedFiles db batch_size
  if files_data = [] then db
  else
    loadAnalytics db (transformData (files_data.map fun fp => rowToFileData fp.1 fp.2))

/-! ### run_pipeline with failing store calls

`_extract_unprocessed_files` catches `mysql.connector.Error` itself,
logs, and returns `[]`, so a store failure during extraction never
reaches `run_pipeline`'s `except`.  `_load_analytics` catches
`mysql.connector.Error`, logs, and `raise`s; `run_pipeline` catches it,
logs, and `raise`s again to the caller.  `Env` says which of the two
store interactions fails with a `mysql.connector.Error`. -/
structure Env where
  extractErr : Bool
  loadErr : Bool
deriving DecidableEq, Repr

/-- The error surfaced to the caller of `run_pipeline`. -/
inductive PipelineError where
  | dbError
deriving DecidableEq, Repr

/-- `run_pipeline(batch_size)` with the store failures of `env`:
a failing extraction query yields `files_data = []`, hence the silent
"No unprocessed files found" return; a failing load raises through to
the caller. -/
def runPipelineE (env : Env) (db : DB) (batch_size : Nat) :
    Except PipelineError DB :=
  let files_data :=
    if env.extractErr then [] else extractUnprocessedFiles db batch_size
  if files_data = [] then .ok db
  else
    let transformed :=
      transformData (files_data.map fun fp => rowToFileData fp.1 fp.2)
    if env.loadErr then .error .dbError
    else .ok (loadAnalytics db transformed)

/-! ### Concrete fixtures used by witnesses and counterexamples -/

/-- A document record whose `extracted_text` column is SQL `NULL`. -/
def nullTextRecord : FileData :=
  { file_id := "f1", filename := "a.txt", file_type := "txt",
    metadata := "{}", data_id := "d1", content_type := "txt",
    extracted_text := none }

/-- A store with one processed file and its extracted document, not yet
analysed. -/
def sampleDB : DB :=
  { files := [⟨"f1", "a.txt", "txt", "{}", true⟩]
    processed_data := [⟨"d1", "f1", "txt", some "hello world"⟩]
    analytics_results := []
    quality_metrics := [] }

/-- A store with two pending documents (used with `batch_size = 1`). -/
def twoDocDB : DB :=
  { files := [⟨"f1", "a.txt", "txt", "{}", true⟩, ⟨"f2", "b.txt", "txt", "{}", true⟩]
    processed_data :=
      [⟨"d1", "f1", "txt", some "alpha"⟩, ⟨"d2", "f2", "txt", some "beta"⟩]
    analytics_results := []
    quality_metrics := [] }

/-- The end-to-end scenario of the spec: three processed documents with
the texts `"good good great"`, `"bad bad terrible"`, `"the quick fox"`. -/
def scenarioDB : DB :=
  { files :=
      [⟨"f1", "a.txt", "txt", "{}", true⟩, ⟨"f2", "b.txt", "txt", "{}", true⟩,
       ⟨"f3", "c.txt", "txt", "{}", true⟩]
    processed_data :=
      [⟨"d1", "f1", "txt", some "good good great"⟩,
       ⟨"d2", "f2", "txt", some "bad bad terrible"⟩,
       ⟨"d3", "f3", "txt", some "the quick fox"⟩]
    analytics_results := []
    quality_metrics := [] }

/-- A marker-free text of exactly 1,000,000 characters. -/
def oneMillionClean : String := String.mk (List.replicate 1000000 'a')

/-- A marker-free text of 1,000,001 characters. -/
def overMillion : String := String.mk (List.replicate 1000001 'a')

/-- A text of exactly 1,000,000 characters whose single word is the
corruption marker `NULL` (padded with whitespace). -/
def oneMillionNull : String :=
  String.mk ('N' :: 'U' :: 'L' :: 'L' :: List.replicate 999996 ' ')

/-! ## Helper lemmas -/

/-- `pyMaxNat` agrees with `max`. -/
theorem pyMaxNat_eq_max (a b : ℕ) : pyMaxNat a b = max a b := by
  unfold pyMaxNat
  rcases Nat.lt_or_ge a b with h | h
  · rw [if_pos h, Nat.max_eq_right h.le]
  · rw [if_neg (Nat.not_lt.mpr h), Nat.max_eq_left h]

/-- `pyMaxQ` agrees with `max`. -/
theorem pyMaxQ_eq_max (a b : ℚ) : pyMaxQ a b = max a b := by
  unfold pyMaxQ
  rcases lt_or_ge a b with h | h
  · rw [if_pos h, max_eq_right h.le]
  · rw [if_neg (not_lt.mpr h), max_eq_left h]

/-- On a record with `NULL` text, the quality dict is the completed
completeness entry followed by the degraded error entry. -/
theorem checkDataQuality_none (fd : FileData) (h : fd.extracted_text = none) :
    checkDataQuality fd =
      [("completeness", ⟨0, "failed"⟩), ("error", ⟨0, "failed"⟩)] := by
  simp [checkDataQuality, h, checkValidity, checkCompleteness]

/-- On a record with an actual string, the quality dict has the five
check entries in insertion order. -/
theorem checkDataQuality_some (fd : FileData) (s : String)
    (h : fd.extracted_text = some s) :
    checkDataQuality fd =
      [("completeness", checkCompleteness (some s)),
       ("validity", checkValidityStr s),
       ("consistency", checkConsistency fd),
       ("uniqueness", checkUniquenessStr s),
       ("accuracy", checkAccuracy)] := by
  simp [checkDataQuality, h, checkValidity, checkUniqueness]

/-- Completeness results stay in `[0,1]` with a known status label. -/
theorem checkCompleteness_bounds (t : Option String) :
    0 ≤ (checkCompleteness t).value ∧ (checkCompleteness t).value ≤ 1 ∧
      (checkCompleteness t).status ∈ (["good", "fair", "poor", "failed"] : List String) := by
  rcases t with _ | s
  · exact ⟨le_refl 0, by norm_num [checkCompleteness], by simp [checkCompleteness]⟩
  · simp only [checkCompleteness]
    split_ifs <;> exact ⟨by norm_num, by norm_num, by simp⟩

/-- Validity results stay in `[0,1]` with a known status label. -/
theorem checkValidityStr_bounds (s : String) :
    0 ≤ (checkValidityStr s).value ∧ (checkValidityStr s).value ≤ 1 ∧
      (checkValidityStr s).status ∈ (["good", "fair", "poor", "failed"] : List String) := by
  have hv0 : (0 : ℚ) ≤
      pyMaxQ 0 (1 - ((invalid_patterns.map (fun p => pyCount s p)).sum : ℚ) /
        (pyMaxNat (pyWords s).length 1 : ℚ)) := by
    rw [pyMaxQ_eq_max]
    exact le_max_left _ _
  have hv1 :
      pyMaxQ 0 (1 - ((invalid_patterns.map (fun p => pyCount s p)).sum : ℚ) /
        (pyMaxNat (pyWords s).length 1 : ℚ)) ≤ 1 := by
    rw [pyMaxQ_eq_max]
    refine max_le (by norm_num) ?_
    have hq : (0 : ℚ) ≤
        ((invalid_patterns.map (fun p => pyCount s p)).sum : ℚ) /
          (pyMaxNat (pyWords s).length 1 : ℚ) :=
      div_nonneg (Nat.cast_nonneg _) (Nat.cast_nonneg _)
    linarith
  simp only [checkValidityStr]
  split_ifs with h h2
  · exact ⟨by norm_num, by norm_num, by simp⟩
  · exact ⟨hv0, hv1, by simp⟩
  · exact ⟨hv0, hv1, by simp⟩

/-- Uniqueness results stay in `[0,1]` with a known status label. -/
theorem checkUniquenessStr_bounds (s : String) :
    0 ≤ (checkUniquenessStr s).value ∧ (checkUniquenessStr s).value ≤ 1 ∧
      (checkUniquenessStr s).status ∈ (["good", "fair", "poor", "failed"] : List String) := by
  simp only [checkUniquenessStr]
  have hpos : 0 < (pyMaxNat (pyWords s).length 1 : ℚ) := by
    rw [pyMaxNat_eq_max]
    exact_mod_cast Nat.lt_of_lt_of_le Nat.one_pos (le_max_right _ _)
  have hle : ((pyWords s).dedup.length : ℚ) ≤ (pyMaxNat (pyWords s).length 1 : ℚ) := by
    rw [pyMaxNat_eq_max]
    exact_mod_cast (List.dedup_sublist (pyWords s)).length_le.trans (le_max_left _ _)
  refine ⟨div_nonneg (Nat.cast_nonneg _) hpos.le, (div_le_one hpos).mpr hle, ?_⟩
  split_ifs <;> simp

/-! ## Claims -/

/-- C10: for an empty-string text the validity check is total and
returns value 1 with status `good`: the divisor is guarded by
`max(word_count, 1)`, so zero words and zero corruption markers score 1
rather than being undefined. -/
theorem validity_empty_text_total :
    checkValidity (some "") = Except.ok ⟨1, "good"⟩ := by
  have h1 : ¬("".length > 1000000) := by decide
  have h2 : (invalid_patterns.map (fun p => pyCount "" p)).sum = 0 := by decide
  have h3 : (pyWords "").length = 0 := by decide
  simp only [checkValidity, checkValidityStr, h2, h3, if_neg h1]
  norm_num [pyMaxNat, pyMaxQ]

/-- C5: the completeness check returns `{0, failed}` on empty or
whitespace-only text, `{0.3, poor}` when the word count is below 10,
`{0.6, fair}` when it is below 50, and `{0.9, good}` when it is at least
50. -/
theorem completeness_thresholds (s : String) :
    (s.toList.all Char.isWhitespace = true →
      checkCompleteness (some s) = ⟨0, "failed"⟩)
  ∧ (s.toList.all Char.isWhitespace = false →
      ((pyWords s).length < 10 → checkCompleteness (some s) = ⟨0.3, "poor"⟩)
    ∧ (10 ≤ (pyWords s).length → (pyWords s).length < 50 →
        checkCompleteness (some s) = ⟨0.6, "fair"⟩)
    ∧ (50 ≤ (pyWords s).length → checkCompleteness (some s) = ⟨0.9, "good"⟩)) := by
  constructor
  · intro h
    simp only [checkCompleteness]
    rw [if_pos (Or.inr h)]
  · intro h
    have hcond : ¬(s = "" ∨ s.toList.all Char.isWhitespace = true) := by
      rintro (rfl | hw)
      · exact absurd h (by decide)
      · exact absurd (hw.symm.trans h) (by decide)
    refine ⟨?_, ?_, ?_⟩
    · intro hlt
      simp only [checkCompleteness]
      rw [if_neg hcond, if_pos hlt]
    · intro h10 h50
      simp only [checkCompleteness]
      rw [if_neg hcond, if_neg (by omega), if_pos h50]
    · intro h50
      simp only [checkCompleteness]
      rw [if_neg hcond, if_neg (by omega), if_neg (by omega)]

/-- Witness for C5 at concrete texts of each word-count class. -/
theorem completeness_thresholds_witness :
    checkCompleteness (some "   ") = ⟨0, "failed"⟩ ∧
    checkCompleteness (some "one two") = ⟨0.3, "poor"⟩ ∧
    checkCompleteness (some "a b c d e f g h i j k l") = ⟨0.6, "fair"⟩ ∧
    checkCompleteness
      (some "a a a a a a a a a a a a a a a a a a a a a a a a a a a a a a a a a a a a a a a a a a a a a a a a a a") =
      ⟨0.9, "good"⟩ :=
  ⟨(completeness_thresholds "   ").1 (by decide),
   ((completeness_thresholds "one two").2 (by decide)).1 (by decide),
   ((completeness_thresholds "a b c d e f g h i j k l").2 (by decide)).2.1
     (by decide) (by decide),
   ((completeness_thresholds
      "a a a a a a a a a a a a a a a a a a a a a a a a a a a a a a a a a a a a a a a a a a a a a a a a a a").2
     (by decide)).2.2 (by decide)⟩

/-- C8 counterexample: the empty text has no repeated words, yet the
uniqueness check returns value 0 (not 1.0) because the code divides by
`max(len(words), 1)`. -/
theorem uniqueness_empty_text_counterexample :
    (pyWords "").Nodup ∧
    checkUniqueness (some "") = Except.ok ⟨0, "fair"⟩ ∧
    (0 : ℚ) ≠ 1 := by
  refine ⟨by decide, ?_, by norm_num⟩
  have h2 : (pyWords "").dedup.length = 0 := by decide
  have h3 : (pyWords "").length = 0 := by decide
  simp only [checkUniqueness, checkUniquenessStr, h2, h3]
  norm_num [pyMaxNat]

/-- C8 amended: the uniqueness value is `distinct / max(total, 1)`; it is
exactly 1.0 for a non-empty text with no repeated words, and the status
is `good` exactly when the value exceeds 0.7 and `fair` otherwise. -/
theorem uniqueness_ratio_amended (s : String) :
    checkUniqueness (some s) =
      Except.ok
        ⟨((pyWords s).dedup.length : ℚ) / (pyMaxNat (pyWords s).length 1 : ℚ),
         if ((pyWords s).dedup.length : ℚ) / (pyMaxNat (pyWords s).length 1 : ℚ) > 0.7
         then "good" else "fair"⟩
  ∧ (pyWords s ≠ [] → (pyWords s).Nodup →
      checkUniqueness (some s) = Except.ok ⟨1, "good"⟩) := by
  constructor
  · rfl
  · intro hne hnd
    have hd : (pyWords s).dedup = pyWords s := List.dedup_eq_self.mpr hnd
    have hmax : pyMaxNat (pyWords s).length 1 = (pyWords s).length := by
      have : 0 < (pyWords s).length := List.length_pos.mpr hne
      unfold pyMaxNat
      split <;> omega
    have hcast : ((pyWords s).length : ℚ) ≠ 0 :=
      Nat.cast_ne_zero.mpr (List.length_pos.mpr hne).ne'
    simp only [checkUniqueness, checkUniquenessStr, hd, hmax, div_self hcast]
    norm_num

/-- Witness for C8 amended at a three-word text without repeats. -/
theorem uniqueness_ratio_amended_witness :
    checkUniqueness (some "a b c") = Except.ok ⟨1, "good"⟩ :=
  (uniqueness_ratio_amended "a b c").2 (by decide) (by decide)

/-- C3 counterexample: on a record whose `extracted_text` is `NULL`, the
completeness check succeeds before the validity check raises, so the
returned mapping holds the completeness entry **and** the error entry —
not a single `error` entry. -/
theorem degraded_checks_keep_completeness_entry :
    checkDataQuality nullTextRecord =
      [("completeness", ⟨0, "failed"⟩), ("error", ⟨0, "failed"⟩)] ∧
    (checkDataQuality nullTextRecord).length ≠ 1 := by
  constructor <;> decide

/-- C3 amended: on an internal failure (in this embedding: `NULL` text,
which makes the validity check raise) the check set degrades to the
entries computed before the failure followed by one final `error` entry
`{0, failed}`; with an actual string no failure occurs and all five
checks are returned. -/
theorem quality_degradation_amended (fd : FileData) :
    (fd.extracted_text = none →
      checkDataQuality fd =
        [("completeness", ⟨0, "failed"⟩), ("error", ⟨0, "failed"⟩)])
  ∧ (∀ s, fd.extracted_text = some s →
      checkDataQuality fd =
        [("completeness", checkCompleteness (some s)),
         ("validity", checkValidityStr s),
         ("consistency", checkConsistency fd),
         ("uniqueness", checkUniquenessStr s),
         ("accuracy", checkAccuracy)]) :=
  ⟨fun h => checkDataQuality_none fd h,
   fun s h => checkDataQuality_some fd s h⟩

/-- Witness for C3 amended at the `NULL`-text record. -/
theorem quality_degradation_amended_witness :
    checkDataQuality nullTextRecord =
      [("completeness", ⟨0, "failed"⟩), ("error", ⟨0, "failed"⟩)] :=
  (quality_degradation_amended nullTextRecord).1 rfl

/-- C9: every entry the quality checker returns — the five checks or the
degraded error entry — has a value in `[0,1]` and one of the four status
labels. -/
theorem quality_values_in_unit_interval (fd : FileData)
    (nc : String × CheckResult) (h : nc ∈ checkDataQuality fd) :
    0 ≤ nc.2.value ∧ nc.2.value ≤ 1 ∧
      nc.2.status ∈ (["good", "fair", "poor", "failed"] : List String) := by
  rcases hfd : fd.extracted_text with _ | s
  · rw [checkDataQuality_none fd hfd] at h
    simp only [List.mem_cons, List.not_mem_nil, or_false] at h
    rcases h with rfl | rfl
    · exact ⟨le_refl 0, by norm_num, by simp⟩
    · exact ⟨le_refl 0, by norm_num, by simp⟩
  · rw [checkDataQuality_some fd s hfd] at h
    simp only [List.mem_cons, List.not_mem_nil, or_false] at h
    rcases h with rfl | rfl | rfl | rfl | rfl
    · exact checkCompleteness_bounds (some s)
    · exact checkValidityStr_bounds s
    · simp only [checkConsistency]
      split_ifs <;> exact ⟨by norm_num, by norm_num, by simp⟩
    · exact checkUniquenessStr_bounds s
    · exact ⟨by norm_num [checkAccuracy], by norm_num [checkAccuracy],
        by simp [checkAccuracy]⟩

/-- Witness for C9 at the degraded error entry of the `NULL`-text
record. -/
theorem quality_values_in_unit_interval_witness :
    ("error", (⟨0, "failed"⟩ : CheckResult)) ∈ checkDataQuality nullTextRecord ∧
    (0 ≤ (0 : ℚ) ∧ (0 : ℚ) ≤ 1 ∧
      "failed" ∈ (["good", "fair", "poor", "failed"] : List String)) :=
  ⟨by decide,
   quality_values_in_unit_interval nullTextRecord ("error", ⟨0, "failed"⟩)
     (by decide)⟩

/-- C7: the sentiment score is
`(positive_hits - negative_hits) / max(word_count, 1)` over the two
fixed lexicons, and it is 0 for any text containing none of the lexicon
words. -/
theorem sentiment_formula_and_zero (s : String) :
    performBasicAnalytics (some s) = Except.ok (performBasicAnalyticsStr s)
  ∧ (performBasicAnalyticsStr s).sentiment_score =
      ((positiveCount s : ℤ) - (negativeCount s : ℤ) : ℚ) /
        (pyMaxNat (pyWords s).length 1 : ℚ)
  ∧ ((∀ w ∈ pyWords (pyLower s),
        w ∉ positive_words.map String.toList ∧
        w ∉ negative_words.map String.toList) →
      (performBasicAnalyticsStr s).sentiment_score = 0) := by
  refine ⟨rfl, rfl, ?_⟩
  intro h
  have hp : positiveCount s = 0 := by
    unfold positiveCount
    rw [List.countP_eq_zero]
    intro w hw
    simpa using (h w hw).1
  have hn : negativeCount s = 0 := by
    unfold negativeCount
    rw [List.countP_eq_zero]
    intro w hw
    simpa using (h w hw).2
  show ((positiveCount s : ℤ) - (negativeCount s : ℤ) : ℚ) /
      (pyMaxNat (pyWords s).length 1 : ℚ) = 0
  rw [hp, hn]
  norm_num

/-- Witness for C7 at a text with no lexicon hits. -/
theorem sentiment_formula_and_zero_witness :
    (performBasicAnalyticsStr "the quick fox").sentiment_score = 0 :=
  (sentiment_formula_and_zero "the quick fox").2.2 (by decide)

/-! ## Lemmas about `splitWSAux` and `countOccsFuel` on long texts -/

/-- Splitting an all-whitespace tail with an empty accumulator yields no
words. -/
theorem splitWSAux_all_ws (l : List Char)
    (h : ∀ c ∈ l, c.isWhitespace = true) : splitWSAux l [] = [] := by
  induction l with
  | nil => rfl
  | cons c rest ih =>
    simp only [splitWSAux, h c (List.mem_cons_self c rest), if_pos rfl]
    exact ih fun d hd => h d (List.mem_cons_of_mem c hd)

/-- Splitting an all-whitespace tail with a non-empty accumulator emits
exactly the accumulated word. -/
theorem splitWSAux_all_ws_acc (l acc : List Char)
    (hl : ∀ c ∈ l, c.isWhitespace = true) (hacc : acc ≠ []) :
    splitWSAux l acc = [acc.reverse] := by
  cases l with
  | nil => simp [splitWSAux, hacc]
  | cons c rest =>
    have hcw := hl c (List.mem_cons_self c rest)
    have hro : splitWSAux rest ([] : List Char) = [] :=
      splitWSAux_all_ws rest fun d hd => hl d (List.mem_cons_of_mem c hd)
    simp [splitWSAux, hcw, hacc, hro]

/-- Splitting a whitespace-free word followed by an all-whitespace tail
emits exactly the accumulator and the word. -/
theorem splitWSAux_word_ws (w : List Char) :
    ∀ acc, ∀ sp : List Char, (∀ c ∈ w, c.isWhitespace = false) →
    (∀ c ∈ sp, c.isWhitespace = true) → acc.reverse ++ w ≠ [] →
    splitWSAux (w ++ sp) acc = [acc.reverse ++ w] := by
  induction w with
  | nil =>
    intro acc sp _ hsp hne
    have hacc : acc ≠ [] := by
      intro h
      exact hne (by simp [h])
    simpa using splitWSAux_all_ws_acc sp acc hsp hacc
  | cons c w' ih =>
    intro acc sp hw hsp _
    have hc : c.isWhitespace = false := hw c (List.mem_cons_self c w')
    calc splitWSAux (c :: w' ++ sp) acc = splitWSAux (w' ++ sp) (c :: acc) := by
          simp [splitWSAux, hc]
      _ = [(c :: acc).reverse ++ w'] :=
          ih (c :: acc) sp (fun d hd => hw d (List.mem_cons_of_mem c hd)) hsp
            (by simp)
      _ = [acc.reverse ++ c :: w'] := by simp

/-- A pattern whose first character does not occur in the text is never
counted. -/
theorem countOccsFuel_zero (p : Char) (ps : List Char) :
    ∀ fuel, ∀ l : List Char, (∀ c ∈ l, c ≠ p) →
    countOccsFuel (p :: ps) fuel l = 0 := by
  intro fuel
  induction fuel with
  | zero =>
    intro l _
    cases l <;> rfl
  | succ n ih =>
    intro l h
    cases l with
    | nil => rfl
    | cons c rest =>
      have hcp : c ≠ p := h c (List.mem_cons_self c rest)
      have hc : (p == c) = false :=
        beq_eq_false_iff_ne.mpr fun e => hcp e.symm
      have hrest : countOccsFuel (p :: ps) n rest = 0 :=
        ih rest fun d hd => h d (List.mem_cons_of_mem c hd)
      simp [countOccsFuel, List.isPrefixOf, hc, hrest]

/-- The megabyte `NULL` text splits into the single word `NULL`. -/
theorem oneMillionNull_words : pyWords oneMillionNull = [['N', 'U', 'L', 'L']] := by
  have h := splitWSAux_word_ws ['N', 'U', 'L', 'L'] [] (List.replicate 999996 ' ')
    (by decide) (fun c hc => by rw [List.eq_of_mem_replicate hc]; decide)
    (by decide)
  exact h

/-- One scan step: a text that is the marker `NULL` followed by
characters that are never `N` contains the marker exactly once. -/
theorem countOccsFuel_null_once (sp : List Char) (hsp : ∀ c ∈ sp, c ≠ 'N')
    (fuel : ℕ) :
    countOccsFuel ['N', 'U', 'L', 'L'] (fuel + 1)
      ('N' :: 'U' :: 'L' :: 'L' :: sp) = 1 := by
  have h0 : countOccsFuel ['N', 'U', 'L', 'L'] fuel sp = 0 :=
    countOccsFuel_zero 'N' ['U', 'L', 'L'] fuel sp hsp
  simp [countOccsFuel, List.isPrefixOf, h0]

/-- The megabyte `NULL` text contains the marker `NULL` exactly once. -/
theorem oneMillionNull_count_null : pyCount oneMillionNull "NULL" = 1 := by
  show countOccsFuel ['N', 'U', 'L', 'L'] oneMillionNull.toList.length
    oneMillionNull.toList = 1
  rw [show oneMillionNull.toList =
    'N' :: 'U' :: 'L' :: 'L' :: List.replicate 999996 ' ' from rfl]
  rw [List.length_cons]
  exact countOccsFuel_null_once _
    (fun c hc => by
      rcases List.mem_cons.mp hc with rfl | hc
      · decide
      rcases List.mem_cons.mp hc with rfl | hc
      · decide
      rcases List.mem_cons.mp hc with rfl | hc
      · decide
      rw [List.eq_of_mem_replicate hc]
      decide) _

/-- The megabyte `NULL` text contains neither of the other two markers. -/
theorem oneMillionNull_count_marks :
    pyCount oneMillionNull "ï¿½" = 0 ∧ pyCount oneMillionNull "undefined" = 0 := by
  constructor
  · exact countOccsFuel_zero 'ï' ['¿', '½'] _ _ fun c hc => by
      rcases List.mem_cons.mp hc with rfl | hc
      · decide
      rcases List.mem_cons.mp hc with rfl | hc
      · decide
      rcases List.mem_cons.mp hc with rfl | hc
      · decide
      rcases List.mem_cons.mp hc with rfl | hc
      · decide
      rw [List.eq_of_mem_replicate hc]
      decide
  · exact countOccsFuel_zero 'u' ['n', 'd', 'e', 'f', 'i', 'n', 'e', 'd'] _ _
      fun c hc => by
      rcases List.mem_cons.mp hc with rfl | hc
      · decide
      rcases List.mem_cons.mp hc with rfl | hc
      · decide
      rcases List.mem_cons.mp hc with rfl | hc
      · decide
      rcases List.mem_cons.mp hc with rfl | hc
      · decide
      rw [List.eq_of_mem_replicate hc]
      decide

/-- C6 counterexample: a document of exactly 1,000,000 characters whose
single word is the corruption marker `NULL` receives validity
`{0, poor}`, not status `good`: the boundary claim holds only for
marker-free text. -/
theorem megabyte_document_can_be_poor :
    oneMillionNull.length = 1000000 ∧
    checkValidity (some oneMillionNull) = Except.ok ⟨0, "poor"⟩ := by
  have hlen : oneMillionNull.length = 1000000 := by
    show ('N' :: 'U' :: 'L' :: 'L' :: List.replicate 999996 ' ').length = 1000000
    rw [List.length_cons, List.length_cons, List.length_cons, List.length_cons,
      List.length_replicate]
  refine ⟨hlen, ?_⟩
  have hng : ¬(oneMillionNull.length > 1000000) := by
    rw [hlen]
    omega
  have hsum : (invalid_patterns.map (fun p => pyCount oneMillionNull p)).sum = 1 := by
    simp [invalid_patterns, oneMillionNull_count_null,
      oneMillionNull_count_marks.1, oneMillionNull_count_marks.2]
  have hwc : (pyWords oneMillionNull).length = 1 := by
    rw [oneMillionNull_words]
    rfl
  simp only [checkValidity, checkValidityStr, hsum, hwc, if_neg hng]
  norm_num [pyMaxNat, pyMaxQ]

/-- C6 amended: a document of at most 1,000,000 characters containing no
corruption marker receives validity value 1 and status `good` — in
particular one of exactly 1,000,000 characters — and the oversized guard
`{0.2, poor}` triggers exactly when the length strictly exceeds
1,000,000. -/
theorem validity_boundary_amended (s : String) :
    (s.length ≤ 1000000 →
      pyCount s "ï¿½" = 0 → pyCount s "NULL" = 0 → pyCount s "undefined" = 0 →
      checkValidity (some s) = Except.ok ⟨1, "good"⟩)
  ∧ (1000000 < s.length →
      checkValidity (some s) = Except.ok ⟨0.2, "poor"⟩) := by
  constructor
  · intro hlen h1 h2 h3
    have hsum : (invalid_patterns.map (fun p => pyCount s p)).sum = 0 := by
      simp [invalid_patterns, h1, h2, h3]
    have hng : ¬(s.length > 1000000) := not_lt.mpr hlen
    simp only [checkValidity, checkValidityStr, hsum, if_neg hng]
    norm_num [pyMaxQ]
  · intro h
    simp [checkValidity, checkValidityStr, h]

/-- Witness for C6 amended: a marker-free text of exactly 1,000,000
characters is `good` with value 1, and one of 1,000,001 characters hits
the oversized guard. -/
theorem validity_boundary_amended_witness :
    checkValidity (some oneMillionClean) = Except.ok ⟨1, "good"⟩ ∧
    checkValidity (some overMillion) = Except.ok ⟨0.2, "poor"⟩ := by
  constructor
  · refine (validity_boundary_amended oneMillionClean).1 ?_ ?_ ?_ ?_
    · show (List.replicate 1000000 'a').length ≤ 1000000
      rw [List.length_replicate]
    · exact countOccsFuel_zero 'ï' ['¿', '½'] _ _ fun c hc => by
        rw [List.eq_of_mem_replicate hc]
        decide
    · exact countOccsFuel_zero 'N' ['U', 'L', 'L'] _ _ fun c hc => by
        rw [List.eq_of_mem_replicate hc]
        decide
    · exact countOccsFuel_zero 'u' ['n', 'd', 'e', 'f', 'i', 'n', 'e', 'd'] _ _
        fun c hc => by
        rw [List.eq_of_mem_replicate hc]
        decide
  · refine (validity_boundary_amended overMillion).2 ?_
    show 1000000 < (List.replicate 1000001 'a').length
    rw [List.length_replicate]
    omega

/-! ## Lemmas about the pipeline phases -/

/-- A successful run appends to `analytics_results` exactly one row per
transformed record, in order. -/
theorem runPipeline_analytics (db : DB) (n : Nat) :
    (runPipeline db n).analytics_results =
      db.analytics_results ++
        (transformData ((extractUnprocessedFiles db n).map fun fp =>
          rowToFileData fp.1 fp.2)).map mkARRow := by
  simp only [runPipeline]
  split
  · rename_i h
    rw [h]
    simp [transformData]
  · rfl

/-- A successful run appends to `data_quality_metrics` exactly the per-
record quality rows, in order. -/
theorem runPipeline_metrics (db : DB) (n : Nat) :
    (runPipeline db n).quality_metrics =
      db.quality_metrics ++
        (transformData ((extractUnprocessedFiles db n).map fun fp =>
          rowToFileData fp.1 fp.2)).flatMap mkQMRows := by
  simp only [runPipeline]
  split
  · rename_i h
    rw [h]
    simp [transformData]
  · rfl

/-- A run never touches the `files` table. -/
theorem runPipeline_files (db : DB) (n : Nat) :
    (runPipeline db n).files = db.files := by
  simp only [runPipeline]
  split <;> rfl

/-- A run never touches the `processed_data` table. -/
theorem runPipeline_processed_data (db : DB) (n : Nat) :
    (runPipeline db n).processed_data = db.processed_data := by
  simp only [runPipeline]
  split <;> rfl

/-- Every record surviving transform carries the full five-entry quality
dict (a record degraded by `NULL` text is dropped by the analytics step
before reaching load). -/
theorem transformData_qm_length (l : List FileData) (r : Transformed)
    (h : r ∈ transformData l) : r.quality_metrics.length = 5 := by
  obtain ⟨fd, hfd, hsome⟩ := List.mem_filterMap.mp h
  rcases ht : fd.extracted_text with _ | s
  · rw [ht] at hsome
    simp [performBasicAnalytics] at hsome
  · rw [ht] at hsome
    simp only [performBasicAnalytics, engineerFeatures, Option.some.injEq]
      at hsome
    rcases hsome with rfl
    show (checkDataQuality fd).length = 5
    rw [checkDataQuality_some fd s ht]
    rfl

/-- C4: the load phase inserts exactly one `AnalyticsResult` row per
surviving record and one `QualityMetric` row per check name (five per
surviving record); on the three-document scenario a run with
`batch_size = 10` yields exactly 3 `AnalyticsResult` rows and 15
`QualityMetric` rows, with sentiment scores positive, negative and
exactly 0 respectively. -/
theorem load_row_counts_and_scenario :
    (∀ db n,
      (runPipeline db n).analytics_results.length =
        db.analytics_results.length +
          (transformData ((extractUnprocessedFiles db n).map fun fp =>
            rowToFileData fp.1 fp.2)).length ∧
      (runPipeline db n).quality_metrics.length =
        db.quality_metrics.length +
          5 * (transformData ((extractUnprocessedFiles db n).map fun fp =>
            rowToFileData fp.1 fp.2)).length)
  ∧ ((runPipeline scenarioDB 10).analytics_results.length = 3 ∧
     (runPipeline scenarioDB 10).quality_metrics.length = 15 ∧
     ∃ q1 q2 q3 : ℚ,
       (runPipeline scenarioDB 10).analytics_results.map
           ARRow.confidence_score = [q1, q2, q3] ∧
         0 < q1 ∧ q2 < 0 ∧ q3 = 0) := by
  constructor
  · intro db n
    constructor
    · rw [runPipeline_analytics, List.length_append, List.length_map]
    · rw [runPipeline_metrics, List.length_append, List.length_flatMap]
      have hmap :
          (transformData ((extractUnprocessedFiles db n).map fun fp =>
            rowToFileData fp.1 fp.2)).map
              (List.length ∘ mkQMRows) =
          (transformData ((extractUnprocessedFiles db n).map fun fp =>
            rowToFileData fp.1 fp.2)).map (fun _ => 5) :=
        List.map_congr_left fun r hr => by
          show (mkQMRows r).length = 5
          unfold mkQMRows
          rw [List.length_map, transformData_qm_length _ r hr]
      rw [hmap, List.map_const', List.sum_replicate, smul_eq_mul, Nat.mul_comm]
  · refine ⟨by decide, by decide, 1, -1, 0, ?_, by norm_num, by norm_num, rfl⟩
    show [((positiveCount "good good great" : ℤ) -
            (negativeCount "good good great" : ℤ) : ℚ) /
            (pyMaxNat (pyWords "good good great").length 1 : ℚ),
          ((positiveCount "bad bad terrible" : ℤ) -
            (negativeCount "bad bad terrible" : ℤ) : ℚ) /
            (pyMaxNat (pyWords "bad bad terrible").length 1 : ℚ),
          ((positiveCount "the quick fox" : ℤ) -
            (negativeCount "the quick fox" : ℤ) : ℚ) /
            (pyMaxNat (pyWords "the quick fox").length 1 : ℚ)] = [1, -1, 0]
    have p1 : positiveCount "good good great" = 3 := by decide
    have n1 : negativeCount "good good great" = 0 := by decide
    have w1 : (pyWords "good good great").length = 3 := by decide
    have p2 : positiveCount "bad bad terrible" = 0 := by decide
    have n2 : negativeCount "bad bad terrible" = 3 := by decide
    have w2 : (pyWords "bad bad terrible").length = 3 := by decide
    have p3 : positiveCount "the quick fox" = 0 := by decide
    have n3 : negativeCount "the quick fox" = 0 := by decide
    have w3 : (pyWords "the quick fox").length = 3 := by decide
    rw [p1, n1, w1, p2, n2, w2, p3, n3, w3]
    norm_num [pyMaxNat]

/-- C1 counterexample: on a store with one pending record, a store error
during the extraction query is swallowed (`_extract_unprocessed_files`
catches it and returns `[]`), so the run completes with no raise and no
writes; a store error during load, by contrast, aborts the whole run
with a raised error. -/
theorem extraction_error_swallowed_load_error_fatal :
    extractUnprocessedFiles sampleDB 10 ≠ [] ∧
    runPipelineE ⟨true, false⟩ sampleDB 10 = Except.ok sampleDB ∧
    runPipelineE ⟨false, true⟩ sampleDB 10 = Except.error PipelineError.dbError :=
  ⟨by decide, rfl, rfl⟩

/-- C1 amended: a store error during extraction is caught and logged
inside `_extract_unprocessed_files`, which returns an empty batch — the
run completes silently with the store unchanged, raising nothing; an
error during transform of a single record is non-fatal (the record is
skipped); a store error during the load phase is re-raised and aborts
the whole run. -/
theorem pipeline_error_policy_amended (db : DB) (n : Nat) :
    (∀ e : Bool, runPipelineE ⟨true, e⟩ db n = Except.ok db)
  ∧ (extractUnprocessedFiles db n ≠ [] →
      runPipelineE ⟨false, true⟩ db n = Except.error PipelineError.dbError)
  ∧ (∀ fd l, fd.extracted_text = none →
      transformData (fd :: l) = transformData l) := by
  refine ⟨?_, ?_, ?_⟩
  · intro e
    simp [runPipelineE]
  · intro h
    simp [runPipelineE, h]
  · intro fd l h
    simp [transformData, h, performBasicAnalytics, engineerFeatures]

/-- Witness for C1 amended on the one-record store and the `NULL`-text
record. -/
theorem pipeline_error_policy_amended_witness :
    runPipelineE ⟨true, true⟩ sampleDB 10 = Except.ok sampleDB ∧
    runPipelineE ⟨false, true⟩ sampleDB 10 = Except.error PipelineError.dbError ∧
    transformData [nullTextRecord] = transformData [] :=
  ⟨(pipeline_error_policy_amended sampleDB 10).1 true,
   (pipeline_error_policy_amended sampleDB 10).2.1 (by decide),
   (pipeline_error_policy_amended sampleDB 10).2.2 nullTextRecord [] rfl⟩

/-- C2 counterexample: with two pending documents and `batch_size = 1`,
the second run — with no `File` or `ExtractedDocument` rows inserted in
between — still inserts one additional `AnalyticsResult` row (the first
batch simply did not cover the second document). -/
theorem second_run_adds_rows_small_batch :
    (runPipeline twoDocDB 1).analytics_results.length = 1 ∧
    (runPipeline twoDocDB 1).files = twoDocDB.files ∧
    (runPipeline twoDocDB 1).processed_data = twoDocDB.processed_data ∧
    (runPipeline (runPipeline twoDocDB 1) 1).analytics_results.length = 2 :=
  ⟨by decide, runPipeline_files twoDocDB 1, runPipeline_processed_data twoDocDB 1,
   by decide⟩

/-- A record with `NULL` text is dropped by `_transform_data`
(`continue` on the caught exception). -/
theorem transformData_cons_none (fd : FileData) (l : List FileData)
    (h : fd.extracted_text = none) :
    transformData (fd :: l) = transformData l := by
  simp [transformData, h, performBasicAnalytics, engineerFeatures]

/-- A batch whose records all have `NULL` text transforms to nothing. -/
theorem transformData_eq_nil (l : List FileData)
    (h : ∀ fd ∈ l, fd.extracted_text = none) : transformData l = [] := by
  induction l with
  | nil => rfl
  | cons fd rest ih =>
    rw [transformData_cons_none fd rest (h fd (List.mem_cons_self fd rest))]
    exact ih fun d hd => h d (List.mem_cons_of_mem fd hd)

/-- Loading an empty batch of transformed records leaves the store
unchanged. -/
theorem loadAnalytics_nil (db : DB) : loadAnalytics db [] = db := by
  simp [loadAnalytics]

/-- C2 amended: the extraction query never selects a pair whose document
already has an `AnalyticsResult` — a document with a result is never
reprocessed — and whenever the batch covers every pending pair, a second
run is a no-op on the store, adding zero `AnalyticsResult` rows (records
with `NULL` text are selected again but dropped in transform, so the
second load inserts nothing). -/
theorem pipeline_idempotence_amended (db : DB) (n m : Nat) :
    (∀ fp ∈ extractUnprocessedFiles db n, hasResult db fp.2.data_id = false)
  ∧ ((extractCandidates db).length ≤ n →
     runPipeline (runPipeline db n) m = runPipeline db n) := by
  constructor
  · intro fp hfp
    have h1 : fp ∈ extractCandidates db := List.mem_of_mem_take hfp
    have h2 := (List.mem_filter.mp h1).2
    have h3 := ((Bool.and_eq_true _ _).mp h2).2
    simpa using h3
  · intro hlen
    have htake : extractUnprocessedFiles db n = extractCandidates db :=
      List.take_of_length_le hlen
    have hjoin : joinRows (runPipeline db n) = joinRows db := by
      unfold joinRows
      rw [runPipeline_files, runPipeline_processed_data]
    have hmono : ∀ did, hasResult db did = true →
        hasResult (runPipeline db n) did = true := by
      intro did h
      unfold hasResult at h ⊢
      rw [runPipeline_analytics, List.any_append, h]
      simp
    have hloaded : ∀ fp ∈ extractCandidates db, ∀ s : String,
        fp.2.extracted_text = some s →
        hasResult (runPipeline db n) fp.2.data_id = true := by
      intro fp hfpc s hs
      have hmem : rowToFileData fp.1 fp.2 ∈
          (extractUnprocessedFiles db n).map fun fp =>
            rowToFileData fp.1 fp.2 := by
        rw [htake]
        exact List.mem_map_of_mem _ hfpc
      have hok1 : performBasicAnalytics
          (rowToFileData fp.1 fp.2).extracted_text =
          Except.ok (performBasicAnalyticsStr s) := by
        show performBasicAnalytics fp.2.extracted_text = _
        rw [hs]
        rfl
      have hok2 : engineerFeatures (rowToFileData fp.1 fp.2).extracted_text =
          Except.ok (engineerFeaturesStr s) := by
        show engineerFeatures fp.2.extracted_text = _
        rw [hs]
        rfl
      have hr : ∃ r ∈ transformData ((extractUnprocessedFiles db n).map
          fun fp => rowToFileData fp.1 fp.2), r.data_id = fp.2.data_id := by
        refine ⟨{ data_id := (rowToFileData fp.1 fp.2).data_id
                  quality_metrics := checkDataQuality (rowToFileData fp.1 fp.2)
                  analytics := performBasicAnalyticsStr s
                  features := engineerFeaturesStr s
                  file_metadata := rowToFileData fp.1 fp.2 },
          List.mem_filterMap.mpr ⟨rowToFileData fp.1 fp.2, hmem, ?_⟩, rfl⟩
        rw [hok1, hok2]
      obtain ⟨r, hrmem, hrid⟩ := hr
      unfold hasResult
      rw [runPipeline_analytics, List.any_append]
      have hany : ((transformData ((extractUnprocessedFiles db n).map
          fun fp => rowToFileData fp.1 fp.2)).map mkARRow).any
            (fun ar => ar.data_id == fp.2.data_id) = true :=
        List.any_eq_true.mpr
          ⟨mkARRow r, List.mem_map_of_mem _ hrmem, by simp [mkARRow, hrid]⟩
      rw [hany]
      simp
    have hA : ∀ fp ∈ extractCandidates (runPipeline db n),
        fp.2.extracted_text = none := by
      intro fp hfp
      have hjm : fp ∈ joinRows db := by
        rw [← hjoin]
        exact (List.mem_filter.mp hfp).1
      have hcond := (List.mem_filter.mp hfp).2
      have hproc : fp.1.processed = true := ((Bool.and_eq_true _ _).mp hcond).1
      have hnr' : hasResult (runPipeline db n) fp.2.data_id = false := by
        have h2 := ((Bool.and_eq_true _ _).mp hcond).2
        simpa using h2
      have hnr : hasResult db fp.2.data_id = false := by
        rcases hb : hasResult db fp.2.data_id
        · rfl
        · rw [hmono _ hb] at hnr'
          cases hnr'
      have hfpc : fp ∈ extractCandidates db :=
        List.mem_filter.mpr ⟨hjm, by simp [hproc, hnr]⟩
      rcases h' : fp.2.extracted_text with _ | s
      · rfl
      · rw [hloaded fp hfpc s h'] at hnr'
        cases hnr'
    have hB : transformData
        ((extractUnprocessedFiles (runPipeline db n) m).map fun fp =>
          rowToFileData fp.1 fp.2) = [] := by
      apply transformData_eq_nil
      intro fd hfd
      obtain ⟨fp, hfp, rfl⟩ := List.mem_map.mp hfd
      exact hA fp (List.mem_of_mem_take hfp)
    have hfinal : ∀ db'' : DB,
        transformData ((extractUnprocessedFiles db'' m).map fun fp =>
          rowToFileData fp.1 fp.2) = [] →
        runPipeline db'' m = db'' := by
      intro db'' h
      by_cases hx : extractUnprocessedFiles db'' m = []
      · simp [runPipeline, hx]
      · simp [runPipeline, hx, h, loadAnalytics]
    exact hfinal (runPipeline db n) hB

/-- Witness for C2 amended on the three-document scenario store. -/
theorem pipeline_idempotence_amended_witness :
    hasResult scenarioDB "d1" = false ∧
    runPipeline (runPipeline scenarioDB 10) 10 = runPipeline scenarioDB 10 :=
  ⟨(pipeline_idempotence_amended scenarioDB 10 10).1
     (⟨"f1", "a.txt", "txt", "{}", true⟩, ⟨"d1", "f1", "txt", some "good good great"⟩)
     (by decide),
   (pipeline_idempotence_amended scenarioDB 10 10).2 (by decide)⟩

end DataEng
